import Mathlib

/-!
Verification of the soil-monitor repository: a shallow embedding of the
i2c soil-moisture driver (src/i2c-soil-drv/main.c, i2c-soil-drv-int.h),
the GPIO pump actuator (src/soil-mon-app/gpio.c, gpio.h), and the
control loop / MQTT telemetry of soil-monitor.c, together with theorems
about the acquisition retry policy, normalization, command protocol,
pump-control loop, signal handling and connect retry logic.
-/

namespace SoilMonitor

/-! ## Driver constants (src/i2c-soil-drv/i2c-soil-drv-int.h, lines 36-48) -/

/-- Kernel errno EIO; the driver returns `-EIO_ERRNO` on partial transfers and
exhausted re-reads. -/
def EIO_ERRNO : Int := 5

def I2C_MSEC_DELAY : Nat := 10

def I2C_HIGH_OUT_OF_RANGE : Int := 4095

def I2C_MAX_REREADS : Nat := 4

def I2C_MIN_RAW_DRY_READING : Int := 0x2a0

def I2C_MAX_RAW_WET_READING : Int := 0x39f

def I2C_MIN_DRY_READING : Int := 0

def I2C_MAX_WET_READING : Int := 255

/-- Macro `I2C_READING_OUT_OF_BOUNDS(X) ((X < 0) || (X > I2C_HIGH_OUT_OF_RANGE))`
(i2c-soil-drv-int.h line 42).  Note it classifies every negative value —
including errno returns of a failed transaction — as out of bounds. -/
def readingOutOfBounds (x : Int) : Bool := x < 0 || x > I2C_HIGH_OUT_OF_RANGE

/-! ## One hardware transaction (i2c_soil_drv_single_read_sensor, main.c 404-445)

The transport (i2c_master_send / i2c_master_recv) is the external
environment; one call of the function consumes one `AttemptOutcome`
describing how the send/recv pair went. -/

/-- Outcome of the transport for one transaction attempt:
the send may fail (negative errno) or transfer a byte count other than 2;
then the recv may do likewise; otherwise two data bytes come back. -/
inductive AttemptOutcome
  | sendFail (errno : Int)
  | sendPartial (n : Int)
  | recvFail (errno : Int)
  | recvPartial (n : Int)
  | ok (b0 b1 : Nat)
deriving DecidableEq, Repr

/-- `i2c_soil_drv_single_read_sensor` (main.c 404-445): write the 2-byte
register address pair, msleep(I2C_MSEC_DELAY), read 2 bytes back.
A failed send/recv returns its negative errno; a partial transfer returns
`-EIO_ERRNO`; success merges the bytes big-endian: `(i2c_buf[0] << 8) | i2c_buf[1]`
(char is unsigned on the ARM target, so each byte is 0-255; `% 256` makes
the byte range structural). -/
def i2c_soil_drv_single_read_sensor : AttemptOutcome → Int
  | .sendFail errno => errno
  | .sendPartial _ => -EIO_ERRNO
  | .recvFail errno => errno
  | .recvPartial _ => -EIO_ERRNO
  | .ok b0 b1 => ((b0 % 256) * 256 + (b1 % 256) : Nat)

/-! ## Retrying read (i2c_soil_drv_read_sensor, main.c 458-481) -/

/-- Observable events of one acquisition: the settle delay
`msleep(I2C_MSEC_DELAY)` before each re-read (main.c 472), and each
transaction attempt, numbered from 0.  (The additional msleep inside
`i2c_soil_drv_single_read_sensor`, between send and recv, is internal to
an attempt and not a separate event.) -/
inductive SensorEvent
  | settleDelay (ms : Nat)
  | transaction (idx : Nat)
deriving DecidableEq, Repr

/-- Result of running the re-read loop: the final raw reading, the number
of transaction attempts performed, and the event trace. -/
structure SensorRun where
  reading : Int
  count : Nat
  trace : List SensorEvent
deriving DecidableEq, Repr

/-- The for loop of `i2c_soil_drv_read_sensor` (main.c 468-474):
`for (int i=0; (I2C_READING_OUT_OF_BOUNDS(reading) && (i < I2C_MAX_REREADS)); i++)`.
`fuel` is `I2C_MAX_REREADS - i`; `n` is the number of attempts already made
(so attempt `n` is the next re-read); each re-read is preceded by
`msleep(I2C_MSEC_DELAY)`. -/
def readSensorGo (a : Nat → AttemptOutcome) :
    Int → Nat → List SensorEvent → Nat → SensorRun
  | reading, n, tr, 0 => ⟨reading, n, tr⟩
  | reading, n, tr, fuel+1 =>
    if readingOutOfBounds reading then
      readSensorGo a (i2c_soil_drv_single_read_sensor (a n)) (n+1)
        (tr ++ [.settleDelay I2C_MSEC_DELAY, .transaction n]) fuel
    else ⟨reading, n, tr⟩

/-- The raw-reading phase of `i2c_soil_drv_read_sensor`: the initial
attempt (main.c 466) followed by the re-read loop. -/
def readSensorRun (a : Nat → AttemptOutcome) : SensorRun :=
  readSensorGo a (i2c_soil_drv_single_read_sensor (a 0)) 1
    [.transaction 0] I2C_MAX_REREADS

/-- Tail of `i2c_soil_drv_read_sensor` (main.c 477-480): classify and
normalize the final raw reading. -/
def normalize (reading : Int) : Int :=
  if reading < I2C_MIN_RAW_DRY_READING then I2C_MIN_DRY_READING
  else if reading > I2C_MAX_RAW_WET_READING then I2C_MAX_WET_READING
  else reading - I2C_MIN_RAW_DRY_READING

/-- `i2c_soil_drv_read_sensor` (main.c 458-481): run the re-read loop,
then return `-EIO_ERRNO` if still out of bounds, else the clamped, rescaled
normalized reading. -/
def i2c_soil_drv_read_sensor (a : Nat → AttemptOutcome) : Int :=
  let reading := (readSensorRun a).reading
  if readingOutOfBounds reading then -EIO_ERRNO
  else normalize reading

/-! ## Device state and the read/write command protocol
(struct i2c_soil_dev, i2c-soil-drv-int.h 50-59; i2c_soil_drv_read,
main.c 484-529; i2c_soil_drv_write, main.c 532-589) -/

/-- The per-device fields the file operations touch:
`int use_simulation` and `unsigned char sim_data`. -/
structure SensorState where
  use_simulation : Bool
  sim_data : Nat
deriving DecidableEq, Repr

/-- `SIM_ON_CMD "sim-on"` (i2c-soil-drv-api.h line 79), as bytes. -/
def SIM_ON_CMD : List Nat := [115, 105, 109, 45, 111, 110]

/-- `SIM_OFF_CMD "sim-off"` (i2c-soil-drv-api.h line 80), as bytes. -/
def SIM_OFF_CMD : List Nat := [115, 105, 109, 45, 111, 102, 102]

def MAX_CMD_BUF_SIZE : Nat := 8

/-- Contents of the stack buffer `cmd_buf` after
`copy_from_user(cmd_buf, buf, min(MAX_CMD_BUF_SIZE, count))` (main.c 567):
positions below `min(MAX_CMD_BUF_SIZE, count)` hold payload bytes, the
rest keep whatever was on the stack (`junk`). -/
def cmdBuf (payload : List Nat) (junk : Nat → Nat) (i : Nat) : Nat :=
  if i < min MAX_CMD_BUF_SIZE payload.length then payload.getD i 0 else junk i

/-- `strncmp(buf, cmd, strlen(cmd)) == 0` for a command string with no
interior NUL: all `strlen(cmd)` leading bytes agree. -/
def strncmpEq (buf : Nat → Nat) (cmd : List Nat) : Bool :=
  (List.range cmd.length).all fun i => buf i == cmd.getD i 0

/-- `i2c_soil_drv_write` (main.c 532-589).  `payload` is the user buffer
(`count = payload.length`); `junk` is the uninitialized tail of `cmd_buf`.
A 1-byte write stores the byte into `sim_data` when simulation is on and
is ignored otherwise; a multi-byte write sets/clears `use_simulation` when
`strncmp` matches `SIM_ON_CMD`/`SIM_OFF_CMD`, else is ignored.  `retval`
is initialized to `count` and only overwritten on a copy fault, which this
model (valid user memory) does not take.  Returns (new state, retval). -/
def i2c_soil_drv_write (st : SensorState) (payload : List Nat)
    (junk : Nat → Nat) : SensorState × Int :=
  let count := payload.length
  if count == 1 then
    if st.use_simulation then
      ({ st with sim_data := payload.getD 0 0 % 256 }, (count : Int))
    else
      (st, (count : Int))
  else
    let buf := cmdBuf payload junk
    if strncmpEq buf SIM_ON_CMD then
      ({ st with use_simulation := true }, (count : Int))
    else if strncmpEq buf SIM_OFF_CMD then
      ({ st with use_simulation := false }, (count : Int))
    else
      (st, (count : Int))

/-- `i2c_soil_drv_read` (main.c 484-529).  Whatever `count` the caller
requested, the function sets `count = 1` (main.c 500) and reads one byte:
`sim_data` when simulation is on, else the normalized hardware reading,
bailing out with the negative error if the sensor read failed.  Returns
(retval, bytes delivered to the user buffer); `copy_to_user` is assumed
to succeed (valid user memory). -/
def i2c_soil_drv_read (st : SensorState) (a : Nat → AttemptOutcome)
    (count : Nat) : Int × List Nat :=
  let _ := count            -- count is forcibly overwritten with 1
  if st.use_simulation then
    (1, [st.sim_data % 256])
  else
    let r := i2c_soil_drv_read_sensor a
    if r < 0 then (r, [])
    else (1, [r.toNat % 256])

/-! ## MQTT telemetry (soil-monitor.c 181-204, 250-277) -/

/-- `mqtt_client_connect`'s retry loop (soil-monitor.c 189-194):
`while ((conn_attempt_result != MQTTCLIENT_SUCCESS) && (conn_attempt_count < 5))
 { sleep(5); conn_attempt_result = MQTTClient_connect(...); conn_attempt_count++; }`.
`results n` tells whether the (n+1)-th `MQTTClient_connect` call succeeds;
`res` and `count` are the two loop variables; `fuel` bounds the loop (5
iterations suffice since `count` increments each pass). -/
def connectGo (results : Nat → Bool) : Bool → Nat → Nat → Bool × Nat
  | res, count, 0 => (res, count)
  | res, count, fuel+1 =>
    if !res && count < 5 then
      connectGo results (results (count+1)) (count+1) fuel
    else
      (res, count)

/-- `mqtt_client_connect` (soil-monitor.c 181-204): one initial connect
attempt, then the bounded retry loop.  Returns (success?, final
`conn_attempt_count`); the total number of connect calls made is
`count + 1`. -/
def mqtt_client_connect (results : Nat → Bool) : Bool × Nat :=
  connectGo results (results 0) 0 5

/-- Outcome of `mqtt_client_init`: return normally or
`exit(EXIT_FAILURE)`. -/
inductive InitResult
  | ok
  | exitFailure
deriving DecidableEq, Repr

/-- `mqtt_client_init` (soil-monitor.c 250-277): create the client, set
callbacks, connect; each failure exits the process with `EXIT_FAILURE`
(lines 256-257, 268-269, 274-275). -/
def mqtt_client_init (createOk cbOk : Bool) (results : Nat → Bool) :
    InitResult :=
  if !createOk then .exitFailure
  else if !cbOk then .exitFailure
  else if (mqtt_client_connect results).1 then .ok
  else .exitFailure

/-! ## GPIO, byte level (src/soil-mon-app/gpio.c; constants from gpio.h) -/

def GPIO_PIN : String := "17"

def GPIO_INPUT : String := "in"

def GPIO_OUTPUT : String := "out"

def GPIO_ERROR : Int := -1

def GPIO_OK : Int := 0

/-- Outcome of one open/write/close sequence on a sysfs control file:
whether `open` returned a descriptor, what `write` returned (bytes
written, or negative on error), and whether `close` returned 0. -/
structure FileWriteRes where
  openOk : Bool
  written : Int
  closeOk : Bool
deriving DecidableEq, Repr

/-- A write actually issued to a sysfs control file. -/
inductive SysWrite
  | toDirection (s : String)
  | toUnexport (s : String)
deriving DecidableEq, Repr

/-- `gpio_disable` (gpio.c 61-83) with injected file-operation outcomes
`r1` (the direction write) and `r2` (the unexport write).  Mirrors
`((fd = open(..)) == -1) || (write(fd, s, n) != n) || close(fd)`: the
write is only issued when the open succeeded, and the second open/write
sequence only runs when the whole first one succeeded with the full byte
count.  Returns (result, writes issued in order). -/
def gpio_disable (r1 r2 : FileWriteRes) : Int × List SysWrite :=
  let n1 : Int := (GPIO_INPUT.length : Int)
  let w1 : List SysWrite := if r1.openOk then [.toDirection GPIO_INPUT] else []
  if !r1.openOk || r1.written != n1 || !r1.closeOk then
    (GPIO_ERROR, w1)
  else
    let n2 : Int := (GPIO_PIN.length : Int)
    let w2 : List SysWrite := if r2.openOk then [.toUnexport GPIO_PIN] else []
    if !r2.openOk || r2.written != n2 || !r2.closeOk then
      (GPIO_ERROR, w1 ++ w2)
    else
      (GPIO_OK, w1 ++ w2)

/-! ## GPIO, pin-state level

The sysfs contract (gpio.h comments, spec section 4.2): the export write
fails on an already-exported pin and otherwise creates the
`gpio17/direction` and `gpio17/value` files (direction defaults to
input); direction/value files only exist — so their open/write only
succeeds — while the pin is exported; the unexport write fails on a
not-exported pin.  Composing gpio.c's call sequences with that contract
gives the following pin-state transition functions. -/

inductive PinDir
  | dirIn
  | dirOut
deriving DecidableEq, Repr

/-- State of the GPIO pin as seen through sysfs. -/
structure PinWorld where
  exported : Bool
  direction : PinDir
  value : Bool
deriving DecidableEq, Repr

/-- `gpio_enable` (gpio.c 28-50) against the sysfs contract: the export
write fails if the pin is already exported (so repeat calls fail);
otherwise the pin is exported (direction defaulting to input) and the
subsequent direction write of "out" succeeds. -/
def gpio_enable_pin (w : PinWorld) : Int × PinWorld :=
  if w.exported then
    (GPIO_ERROR, w)
  else
    (GPIO_OK, { exported := true, direction := .dirOut, value := w.value })

/-- `gpio_disable` (gpio.c 61-83) against the sysfs contract: the
direction write of "in" fails if the pin is not exported (the file does
not exist), aborting before the unexport write; otherwise drive is
de-asserted (direction := input) and then the unexport write succeeds. -/
def gpio_disable_pin (w : PinWorld) : Int × PinWorld :=
  if !w.exported then
    (GPIO_ERROR, w)
  else
    (GPIO_OK, { exported := false, direction := .dirIn, value := w.value })

/-- `gpio_on` (gpio.c 92-106): value write of "1"; fails when the pin is
not exported. -/
def gpio_on_pin (w : PinWorld) : Int × PinWorld :=
  if !w.exported then (GPIO_ERROR, w)
  else (GPIO_OK, { w with value := true })

/-- `gpio_off` (gpio.c 115-129): value write of "0"; fails when the pin
is not exported. -/
def gpio_off_pin (w : PinWorld) : Int × PinWorld :=
  if !w.exported then (GPIO_ERROR, w)
  else (GPIO_OK, { w with value := false })

/-- Any sequence of `gpio_on`/`gpio_off` calls (`true` = on), as the
running control loop issues between startup and shutdown. -/
def applyPumpOps : List Bool → PinWorld → PinWorld
  | [], w => w
  | b :: rest, w =>
    applyPumpOps rest (if b then (gpio_on_pin w).2 else (gpio_off_pin w).2)

/-! ## Signal handler (soil-monitor.c 108-122) -/

/-- The three signals `init_signal_handlers` installs the handler for. -/
inductive Sig
  | sigint
  | sigterm
  | sigusr1
deriving DecidableEq, Repr

inductive ExitStatus
  | success
  | failure
deriving DecidableEq, Repr

/-- `signal_handler` (soil-monitor.c 108-122): SIGUSR1 does nothing (the
interrupted sleep just returns early); any other caught signal calls
`gpio_disable()` ignoring its result and then `exit(EXIT_SUCCESS)`.
Returns (pin state after the handler, exit taken if any). -/
def signal_handler (sig : Sig) (w : PinWorld) :
    PinWorld × Option ExitStatus :=
  match sig with
  | .sigusr1 => (w, none)
  | _ => ((gpio_disable_pin w).2, some .success)

/-! ## Control loop, one Running iteration (soil-monitor.c main, 375-428) -/

/-- Telemetry/log messages the iteration emits. -/
inductive LoopMsg
  | currentMoisture (v : Nat)
  | pumpOn (runtime : Nat)
  | pumpOff
  | sleeping (secs : Nat)
deriving DecidableEq, Repr

/-- Observable actions of one loop iteration, in program order. -/
inductive LoopEvent
  | readAttempt
  | publish (m : LoopMsg)
  | gpioOnCall
  | gpioOffCall
  | gpioDisableCall
  | sleepFor (secs : Nat)
deriving DecidableEq, Repr

/-- How the iteration ends: fall through to the next `while (1)` pass, or
`exit(EXIT_FAILURE)`. -/
inductive IterOutcome
  | continueLoop
  | exitFailure
deriving DecidableEq, Repr

/-- Configuration the loop body reads: `target`, `pump_time`,
`sleep_time`, and whether `-m` supplied a broker URI (publishes happen
only then). -/
structure IterConfig where
  target : Nat
  pump_time : Nat
  sleep_time : Nat
  mqttEnabled : Bool
deriving DecidableEq, Repr

/-- Environment of one iteration: what `read(soil_drv_fd, &current, 1)`
yields (`some v` = returned 1 with byte `v`; `none` = returned anything
else), and whether the `gpio_on`/`gpio_off` calls succeed. -/
structure IterInput where
  readResult : Option Nat
  gpioOnOk : Bool
  gpioOffOk : Bool
deriving DecidableEq, Repr

/-- Publish event list: `mqtt_publish_msg` is called only when a broker
URI was configured (soil-monitor.c 385-387, 398-400, 416-418, 424-426). -/
def pubIf (cfg : IterConfig) (m : LoopMsg) : List LoopEvent :=
  if cfg.mqttEnabled then [.publish m] else []

/-- One iteration of the `while (1)` loop (soil-monitor.c 375-428):
read the current moisture — on a short/failed read, `gpio_disable()`
(ignored) then `exit(EXIT_FAILURE)` (377-382); publish the reading;
if `current < target`: `gpio_on()` (on error disable + exit), publish
pump-on, `sleep(pump_time)`, `gpio_off()` (on error disable + exit),
publish pump-off (389-420); finally publish sleeping and
`sleep(sleep_time)` (421-427). -/
def main_loop_iteration (cfg : IterConfig) (inp : IterInput) :
    List LoopEvent × IterOutcome :=
  match inp.readResult with
  | none => ([.readAttempt, .gpioDisableCall], .exitFailure)
  | some current =>
    let head := [LoopEvent.readAttempt] ++ pubIf cfg (.currentMoisture current)
    if current < cfg.target then
      let head := head ++ [LoopEvent.gpioOnCall]
      if !inp.gpioOnOk then
        (head ++ [.gpioDisableCall], .exitFailure)
      else
        let head := head ++ pubIf cfg (.pumpOn cfg.pump_time) ++
          [LoopEvent.sleepFor cfg.pump_time, LoopEvent.gpioOffCall]
        if !inp.gpioOffOk then
          (head ++ [.gpioDisableCall], .exitFailure)
        else
          (head ++ pubIf cfg .pumpOff ++ pubIf cfg (.sleeping cfg.sleep_time) ++
            [LoopEvent.sleepFor cfg.sleep_time], .continueLoop)
    else
      (head ++ pubIf cfg (.sleeping cfg.sleep_time) ++
        [LoopEvent.sleepFor cfg.sleep_time], .continueLoop)

/-- The GPIO/pump/sleep actions of an iteration, with the logging and
telemetry publishes (non-fatal, no effect on control flow) filtered out. -/
def pumpEvents (evs : List LoopEvent) : List LoopEvent :=
  evs.filter fun e =>
    match e with
    | .gpioOnCall | .gpioOffCall | .gpioDisableCall | .sleepFor _ => true
    | _ => false

/-! ## Helper lemmas on the re-read loop -/

/-- The trace the re-read loop appends while every reading stays out of
bounds: a settle delay then transaction `n`, then the same from `n+1`. -/
def oobTrace : Nat → Nat → List SensorEvent
  | _, 0 => []
  | n, fuel+1 =>
    [.settleDelay I2C_MSEC_DELAY, .transaction n] ++ oobTrace (n+1) fuel

lemma oob_of_neg {x : Int} (h : x < 0) : readingOutOfBounds x = true := by
  simp only [readingOutOfBounds, Bool.or_eq_true, decide_eq_true_eq]
  exact Or.inl h

lemma readSensorGo_count_ge (a : Nat → AttemptOutcome) :
    ∀ fuel r n tr, n ≤ (readSensorGo a r n tr fuel).count := by
  intro fuel
  induction fuel with
  | zero => intro r n tr; simp [readSensorGo]
  | succ fuel ih =>
    intro r n tr
    by_cases h : readingOutOfBounds r = true
    · simp only [readSensorGo, h, if_true]
      exact le_trans (Nat.le_succ n) (ih _ _ _)
    · simp [readSensorGo, h]

lemma readSensorGo_all_oob (a : Nat → AttemptOutcome)
    (h : ∀ n, readingOutOfBounds (i2c_soil_drv_single_read_sensor (a n)) = true) :
    ∀ fuel r n tr, readingOutOfBounds r = true →
      (readSensorGo a r n tr fuel).count = n + fuel ∧
      (readSensorGo a r n tr fuel).trace = tr ++ oobTrace n fuel ∧
      readingOutOfBounds (readSensorGo a r n tr fuel).reading = true := by
  intro fuel
  induction fuel with
  | zero => intro r n tr hr; simp [readSensorGo, oobTrace, hr]
  | succ fuel ih =>
    intro r n tr hr
    simp only [readSensorGo, hr, if_true]
    obtain ⟨hc, ht, hb⟩ := ih (i2c_soil_drv_single_read_sensor (a n)) (n+1)
      (tr ++ [.settleDelay I2C_MSEC_DELAY, .transaction n]) (h n)
    refine ⟨by omega, ?_, hb⟩
    rw [ht, oobTrace, List.append_assoc]

/-! ## Claim C1 -/

/-- Environment for the C1 counterexample: the transport fails on the
first transaction (send error -5), then delivers bytes 0x03 0x00 (raw
0x300 = 768, in bounds). -/
def attemptsC1 : Nat → AttemptOutcome :=
  fun n => if n == 0 then .sendFail (-5) else .ok 3 0

/-- C1 counterexample: with the first transaction failing in transport
(`i2c_soil_drv_single_read_sensor` returns -5) the acquisition does NOT
fail immediately — the negative value is classified out of bounds by
`I2C_READING_OUT_OF_BOUNDS` and re-read: a second transaction is
performed (count = 2) and `i2c_soil_drv_read_sensor` returns the
normalized reading 96 (= 768 - 0x2a0) instead of an error. -/
theorem transport_failure_not_immediate_cx :
    i2c_soil_drv_single_read_sensor (attemptsC1 0) = -5 ∧
    i2c_soil_drv_read_sensor attemptsC1 = 96 ∧
    (readSensorRun attemptsC1).count = 2 := by
  decide

/-- C1 (amended): a failed sensor transaction does not abort the
acquisition; its negative return is treated as an out-of-bounds reading
and retried.  If the first transaction fails, at least one further
transaction attempt is performed; if every transaction fails, the
acquisition performs all `I2C_MAX_REREADS + 1` attempts and then fails
with `-EIO_ERRNO` (the same error as an exhausted out-of-range reading), never
returning a value from a failed transaction. -/
theorem transport_failure_retried (a : Nat → AttemptOutcome) :
    (i2c_soil_drv_single_read_sensor (a 0) < 0 →
      2 ≤ (readSensorRun a).count) ∧
    ((∀ n, i2c_soil_drv_single_read_sensor (a n) < 0) →
      i2c_soil_drv_read_sensor a = -EIO_ERRNO ∧
      (readSensorRun a).count = I2C_MAX_REREADS + 1) := by
  constructor
  · intro hneg
    have hoob := oob_of_neg hneg
    show 2 ≤ (readSensorGo a (i2c_soil_drv_single_read_sensor (a 0)) 1
      [.transaction 0] I2C_MAX_REREADS).count
    rw [show I2C_MAX_REREADS = 3 + 1 from rfl]
    simp only [readSensorGo, hoob, if_true]
    exact readSensorGo_count_ge a 3 _ 2 _
  · intro hall
    have hoob : ∀ n, readingOutOfBounds (i2c_soil_drv_single_read_sensor (a n)) = true :=
      fun n => oob_of_neg (hall n)
    obtain ⟨hc, _, hb⟩ := readSensorGo_all_oob a hoob I2C_MAX_REREADS
      (i2c_soil_drv_single_read_sensor (a 0)) 1 [.transaction 0] (hoob 0)
    constructor
    · unfold i2c_soil_drv_read_sensor
      simp only [readSensorRun] at hb ⊢
      rw [hb, if_pos rfl]
    · show (readSensorGo a (i2c_soil_drv_single_read_sensor (a 0)) 1
        [.transaction 0] I2C_MAX_REREADS).count = I2C_MAX_REREADS + 1
      omega

/-- Environment where every transaction fails in transport. -/
def attemptsAllFail : Nat → AttemptOutcome := fun _ => .sendFail (-5)

/-- Witness for the amended C1 at a concrete environment (send error -5
on every attempt). -/
theorem transport_failure_retried_witness :
    2 ≤ (readSensorRun attemptsAllFail).count ∧
    (i2c_soil_drv_read_sensor attemptsAllFail = -EIO_ERRNO ∧
     (readSensorRun attemptsAllFail).count = I2C_MAX_REREADS + 1) :=
  ⟨(transport_failure_retried attemptsAllFail).1 (by decide),
   (transport_failure_retried attemptsAllFail).2
     (fun _ => show (-5 : Int) < 0 by decide)⟩

/-! ## Claim C2 -/

/-- C2: when every transaction attempt yields an out-of-bounds raw value,
the acquisition performs exactly `I2C_MAX_REREADS + 1` transaction
attempts, each re-read preceded by the `I2C_MSEC_DELAY` settle delay, and
then fails with `-EIO_ERRNO` (`OutOfRangeError`) — no stale or partial reading
is returned. -/
theorem acquire_all_out_of_bounds (a : Nat → AttemptOutcome)
    (h : ∀ n, readingOutOfBounds (i2c_soil_drv_single_read_sensor (a n)) = true) :
    i2c_soil_drv_read_sensor a = -EIO_ERRNO ∧
    (readSensorRun a).count = I2C_MAX_REREADS + 1 ∧
    (readSensorRun a).trace =
      [.transaction 0,
       .settleDelay I2C_MSEC_DELAY, .transaction 1,
       .settleDelay I2C_MSEC_DELAY, .transaction 2,
       .settleDelay I2C_MSEC_DELAY, .transaction 3,
       .settleDelay I2C_MSEC_DELAY, .transaction 4] := by
  obtain ⟨hc, ht, hb⟩ := readSensorGo_all_oob a h I2C_MAX_REREADS
    (i2c_soil_drv_single_read_sensor (a 0)) 1 [.transaction 0] (h 0)
  refine ⟨?_, ?_, ?_⟩
  · unfold i2c_soil_drv_read_sensor
    simp only [readSensorRun] at hb ⊢
    rw [hb, if_pos rfl]
  · show (readSensorGo a (i2c_soil_drv_single_read_sensor (a 0)) 1
      [.transaction 0] I2C_MAX_REREADS).count = I2C_MAX_REREADS + 1
    omega
  · show (readSensorGo a (i2c_soil_drv_single_read_sensor (a 0)) 1
      [.transaction 0] I2C_MAX_REREADS).trace = _
    rw [ht]
    decide

/-- Environment where every transaction succeeds but delivers 0xFFFF,
above `I2C_HIGH_OUT_OF_RANGE`. -/
def attemptsAllOob : Nat → AttemptOutcome := fun _ => .ok 255 255

/-- Witness for C2 at a concrete environment (every attempt reads
0xFFFF > 4095). -/
theorem acquire_all_out_of_bounds_witness :
    i2c_soil_drv_read_sensor attemptsAllOob = -EIO_ERRNO ∧
    (readSensorRun attemptsAllOob).count = I2C_MAX_REREADS + 1 ∧
    (readSensorRun attemptsAllOob).trace =
      [.transaction 0,
       .settleDelay I2C_MSEC_DELAY, .transaction 1,
       .settleDelay I2C_MSEC_DELAY, .transaction 2,
       .settleDelay I2C_MSEC_DELAY, .transaction 3,
       .settleDelay I2C_MSEC_DELAY, .transaction 4] :=
  acquire_all_out_of_bounds attemptsAllOob (fun _ => rfl)

/-! ## Claim C3 -/

/-- C3: the normalization of an in-bounds raw reading (the tail of
`i2c_soil_drv_read_sensor`, main.c 478-480) is monotone non-decreasing on
`[I2C_MIN_RAW_DRY_READING, I2C_MAX_RAW_WET_READING]`, maps the window
ends to 0 and 255, maps every in-bounds value below the window to 0 and
every in-bounds value above it to 255, and always lands in [0, 255]. -/
theorem normalize_spec :
    (∀ r s : Int, I2C_MIN_RAW_DRY_READING ≤ r → r ≤ s →
      s ≤ I2C_MAX_RAW_WET_READING → normalize r ≤ normalize s) ∧
    normalize I2C_MIN_RAW_DRY_READING = 0 ∧
    normalize I2C_MAX_RAW_WET_READING = 255 ∧
    (∀ r : Int, 0 ≤ r → r < I2C_MIN_RAW_DRY_READING → normalize r = 0) ∧
    (∀ r : Int, I2C_MAX_RAW_WET_READING < r → r ≤ I2C_HIGH_OUT_OF_RANGE →
      normalize r = 255) ∧
    (∀ r : Int, 0 ≤ r → r ≤ I2C_HIGH_OUT_OF_RANGE →
      0 ≤ normalize r ∧ normalize r ≤ 255) := by
  refine ⟨?_, by decide, by decide, ?_, ?_, ?_⟩
  · intro r s h1 h2 h3
    unfold normalize I2C_MIN_RAW_DRY_READING I2C_MAX_RAW_WET_READING
      I2C_MIN_DRY_READING I2C_MAX_WET_READING at *
    split_ifs <;> omega
  · intro r h1 h2
    unfold normalize I2C_MIN_RAW_DRY_READING I2C_MIN_DRY_READING at *
    rw [if_pos h2]
  · intro r h1 h2
    unfold normalize I2C_MIN_RAW_DRY_READING I2C_MAX_RAW_WET_READING
      I2C_MAX_WET_READING I2C_HIGH_OUT_OF_RANGE at *
    split_ifs <;> omega
  · intro r h1 h2
    unfold normalize I2C_MIN_RAW_DRY_READING I2C_MAX_RAW_WET_READING
      I2C_MIN_DRY_READING I2C_MAX_WET_READING I2C_HIGH_OUT_OF_RANGE at *
    split_ifs <;> omega

/-- Witness for C3 at concrete raw readings: monotone step 672 ≤ 700,
below-window 100 maps to 0, above-window 1000 maps to 255, and 800 lands
in [0, 255]. -/
theorem normalize_spec_witness :
    normalize 672 ≤ normalize 700 ∧ normalize 100 = 0 ∧
    normalize 1000 = 255 ∧ (0 ≤ normalize 800 ∧ normalize 800 ≤ 255) :=
  ⟨normalize_spec.1 672 700 (by decide) (by decide) (by decide),
   normalize_spec.2.2.2.1 100 (by decide) (by decide),
   normalize_spec.2.2.2.2.1 1000 (by decide) (by decide),
   normalize_spec.2.2.2.2.2 800 (by decide) (by decide)⟩

/-! ## Claim C4 -/

/-- Connection environment for the C4 counterexample: the first five
`MQTTClient_connect` calls fail, the sixth succeeds. -/
def c4results : Nat → Bool := fun n => n == 5

/-- C4 counterexample: all of the first 5 connect attempts fail, yet
`mqtt_client_connect` does not report a `ConnectionError` — the loop
allows a 6th attempt (`conn_attempt_count < 5` permits five retries after
the initial call), which succeeds, so connect returns success and
`mqtt_client_init` returns normally instead of exiting. -/
theorem mqtt_connect_ceiling_cx :
    c4results 0 = false ∧ c4results 1 = false ∧ c4results 2 = false ∧
    c4results 3 = false ∧ c4results 4 = false ∧
    mqtt_client_connect c4results = (true, 5) ∧
    mqtt_client_init true true c4results = .ok := by
  decide

/-- C4 (amended): `mqtt_client_connect` retries a failed connection with
a fixed backoff up to a ceiling of 6 total attempts (one initial call
plus at most 5 retries): succeeding on the 5th attempt returns success,
succeeding on the 6th attempt still returns success, and only when all 6
attempts fail does it report failure, upon which `mqtt_client_init`
exits the process with `EXIT_FAILURE`. -/
theorem mqtt_connect_retry (results : Nat → Bool) :
    (results 0 = false → results 1 = false → results 2 = false →
     results 3 = false → results 4 = true →
      mqtt_client_connect results = (true, 4)) ∧
    (results 0 = false → results 1 = false → results 2 = false →
     results 3 = false → results 4 = false → results 5 = true →
      mqtt_client_connect results = (true, 5)) ∧
    ((∀ n, n < 6 → results n = false) →
      mqtt_client_connect results = (false, 5) ∧
      mqtt_client_init true true results = .exitFailure) := by
  refine ⟨?_, ?_, ?_⟩
  · intro h0 h1 h2 h3 h4
    simp [mqtt_client_connect, connectGo, h0, h1, h2, h3, h4]
  · intro h0 h1 h2 h3 h4 h5
    simp [mqtt_client_connect, connectGo, h0, h1, h2, h3, h4, h5]
  · intro h
    have hc : mqtt_client_connect results = (false, 5) := by
      simp [mqtt_client_connect, connectGo,
        h 0 (by omega), h 1 (by omega), h 2 (by omega),
        h 3 (by omega), h 4 (by omega), h 5 (by omega)]
    refine ⟨hc, ?_⟩
    simp [mqtt_client_init, hc]

/-- Witness for the amended C4: success on the 5th attempt, success on
the 6th attempt, and failure plus fatal init exit when all 6 fail, at
three concrete connect environments. -/
theorem mqtt_connect_retry_witness :
    mqtt_client_connect (fun n => n == 4) = (true, 4) ∧
    mqtt_client_connect c4results = (true, 5) ∧
    (mqtt_client_connect (fun _ => false) = (false, 5) ∧
     mqtt_client_init true true (fun _ => false) = .exitFailure) :=
  ⟨(mqtt_connect_retry (fun n => n == 4)).1 rfl rfl rfl rfl rfl,
   (mqtt_connect_retry c4results).2.1 rfl rfl rfl rfl rfl rfl,
   (mqtt_connect_retry (fun _ => false)).2.2 (fun _ _ => rfl)⟩

/-! ## Claim C5 -/

/-- Stand-in for the uninitialized tail of `cmd_buf`. -/
def zeroJunk : Nat → Nat := fun _ => 0

/-- Payload "sim-onX": not equal to either control string. -/
def c5payload : List Nat := [115, 105, 109, 45, 111, 110, 88]

/-- C5 counterexample: the 7-byte payload "sim-onX" is neither of the two
fixed control strings, yet the write does not leave the state unchanged —
`strncmp(cmd_buf, SIM_ON_CMD, strlen(SIM_ON_CMD))` is a prefix
comparison, so the write flips `use_simulation` on. -/
theorem write_prefix_match_cx :
    c5payload ≠ SIM_ON_CMD ∧ c5payload ≠ SIM_OFF_CMD ∧
    2 ≤ c5payload.length ∧
    i2c_soil_drv_write ⟨false, 0⟩ c5payload zeroJunk =
      (⟨true, 0⟩, 7) := by
  decide

lemma strncmpEq_false {buf : Nat → Nat} {cmd : List Nat} (i : Nat)
    (hi : i < cmd.length) (hne : buf i ≠ cmd.getD i 0) :
    strncmpEq buf cmd = false := by
  apply Bool.eq_false_iff.mpr
  intro hall
  rw [strncmpEq, List.all_eq_true] at hall
  have := hall i (List.mem_range.mpr hi)
  exact hne (by simpa using this)

/-- C5 (amended): a write of two or more bytes whose payload disagrees
with `SIM_ON_CMD` at some position among the first
`min count (strlen SIM_ON_CMD)` bytes and with `SIM_OFF_CMD` at some
position among the first `min count (strlen SIM_OFF_CMD)` bytes — so that
neither `strncmp` prefix comparison can match, whatever the uninitialized
tail of `cmd_buf` holds — leaves the sensor state unchanged and reports
its full length as consumed. -/
theorem write_unrecognized_ignored (st : SensorState) (payload : List Nat)
    (junk : Nat → Nat)
    (hlen : 2 ≤ payload.length)
    (hon : ∃ i, i < min payload.length SIM_ON_CMD.length ∧
      payload.getD i 0 ≠ SIM_ON_CMD.getD i 0)
    (hoff : ∃ i, i < min payload.length SIM_OFF_CMD.length ∧
      payload.getD i 0 ≠ SIM_OFF_CMD.getD i 0) :
    i2c_soil_drv_write st payload junk = (st, (payload.length : Int)) := by
  obtain ⟨i, hi, hni⟩ := hon
  obtain ⟨j, hj, hnj⟩ := hoff
  have hion : i < SIM_ON_CMD.length := lt_of_lt_of_le hi (min_le_right _ _)
  have hjoff : j < SIM_OFF_CMD.length := lt_of_lt_of_le hj (min_le_right _ _)
  have hbi : cmdBuf payload junk i = payload.getD i 0 := by
    have : i < min MAX_CMD_BUF_SIZE payload.length := by
      have h1 : i < payload.length := lt_of_lt_of_le hi (min_le_left _ _)
      have h2 : SIM_ON_CMD.length ≤ MAX_CMD_BUF_SIZE := by decide
      omega
    rw [cmdBuf, if_pos this]
  have hbj : cmdBuf payload junk j = payload.getD j 0 := by
    have : j < min MAX_CMD_BUF_SIZE payload.length := by
      have h1 : j < payload.length := lt_of_lt_of_le hj (min_le_left _ _)
      have h2 : SIM_OFF_CMD.length ≤ MAX_CMD_BUF_SIZE := by decide
      omega
    rw [cmdBuf, if_pos this]
  have hOn : strncmpEq (cmdBuf payload junk) SIM_ON_CMD = false :=
    strncmpEq_false i hion (by rw [hbi]; exact hni)
  have hOff : strncmpEq (cmdBuf payload junk) SIM_OFF_CMD = false :=
    strncmpEq_false j hjoff (by rw [hbj]; exact hnj)
  have hc : (payload.length == 1) = false := by
    simp only [beq_eq_false_iff_ne, ne_eq]
    omega
  rw [i2c_soil_drv_write]
  simp only [hc, hOn, hOff, Bool.false_eq_true, if_false]

/-- Witness for the amended C5: the 2-byte payload [1, 2] mismatches both
control strings at position 0, so the write is ignored and consumed in
full. -/
theorem write_unrecognized_ignored_witness :
    i2c_soil_drv_write ⟨true, 9⟩ [1, 2] zeroJunk = (⟨true, 9⟩, 2) :=
  write_unrecognized_ignored ⟨true, 9⟩ [1, 2] zeroJunk (by decide)
    ⟨0, by decide, by decide⟩ ⟨0, by decide, by decide⟩

/-! ## Claim C6 -/

lemma pumpEvents_pubIf (cfg : IterConfig) (m : LoopMsg) :
    pumpEvents (pubIf cfg m) = [] := by
  cases h : cfg.mqttEnabled <;> simp [pubIf, pumpEvents, h]

/-- C6: in a Running iteration with a successful reading `v` and healthy
GPIO, if `v < target` the loop turns the pump on, sleeps for `pump_time`
and turns the pump off (then sleeps the poll interval); if
`target ≤ v` the pump is not actuated at all — the only GPIO/sleep action
of the iteration is the poll sleep.  Instantiated at target = 128 and
readings 100, 150 by the witness. -/
theorem pump_decision (cfg : IterConfig) (v : Nat) (onOk offOk : Bool) :
    (v < cfg.target → onOk = true → offOk = true →
      pumpEvents (main_loop_iteration cfg ⟨some v, onOk, offOk⟩).1 =
        [.gpioOnCall, .sleepFor cfg.pump_time, .gpioOffCall,
         .sleepFor cfg.sleep_time] ∧
      (main_loop_iteration cfg ⟨some v, onOk, offOk⟩).2 = .continueLoop) ∧
    (cfg.target ≤ v →
      pumpEvents (main_loop_iteration cfg ⟨some v, onOk, offOk⟩).1 =
        [.sleepFor cfg.sleep_time] ∧
      (main_loop_iteration cfg ⟨some v, onOk, offOk⟩).2 = .continueLoop) := by
  constructor
  · intro hv hOn hOff
    subst hOn hOff
    simp only [main_loop_iteration, if_pos hv, Bool.not_true,
      Bool.false_eq_true, if_false]
    constructor
    · simp [pumpEvents, pumpEvents_pubIf, pubIf, List.filter_append]
      cases h : cfg.mqttEnabled <;> simp [pumpEvents, h]
    · trivial
  · intro hv
    have hnv : ¬ v < cfg.target := Nat.not_lt.mpr hv
    simp only [main_loop_iteration, if_neg hnv]
    constructor
    · simp [pumpEvents, pubIf, List.filter_append]
      cases h : cfg.mqttEnabled <;> simp [pumpEvents, h]
    · trivial

/-- Witness for C6: the spec scenario — target 128, simulated readings
100 then 150, pump_time 5, poll interval 3600 — pump runs in iteration 1
and is untouched in iteration 2. -/
theorem pump_decision_witness :
    (pumpEvents (main_loop_iteration ⟨128, 5, 3600, false⟩
        ⟨some 100, true, true⟩).1 =
      [.gpioOnCall, .sleepFor 5, .gpioOffCall, .sleepFor 3600] ∧
     (main_loop_iteration ⟨128, 5, 3600, false⟩
        ⟨some 100, true, true⟩).2 = .continueLoop) ∧
    (pumpEvents (main_loop_iteration ⟨128, 5, 3600, false⟩
        ⟨some 150, true, true⟩).1 = [.sleepFor 3600] ∧
     (main_loop_iteration ⟨128, 5, 3600, false⟩
        ⟨some 150, true, true⟩).2 = .continueLoop) :=
  ⟨(pump_decision ⟨128, 5, 3600, false⟩ 100 true true).1 (by decide) rfl rfl,
   (pump_decision ⟨128, 5, 3600, false⟩ 150 true true).2 (by decide)⟩

/-! ## Claim C7 -/

/-- C7: whenever the read of the sensor device fails in a Running
iteration (returns anything other than 1 byte), the iteration attempts
`gpio_disable()` with the result ignored and exits with failure: for
every configuration and whatever the GPIO calls would have returned, the
iteration's actions are exactly the read attempt followed by the disable
call, the outcome is `exit(EXIT_FAILURE)`, and in particular no pump
actuation and no continuation of the loop occurs. -/
theorem read_failure_fatal (cfg : IterConfig) (onOk offOk : Bool) :
    main_loop_iteration cfg ⟨none, onOk, offOk⟩ =
      ([.readAttempt, .gpioDisableCall], .exitFailure) := rfl

/-! ## Claim C8 -/

lemma applyPumpOps_exported (ops : List Bool) :
    ∀ w : PinWorld, (applyPumpOps ops w).exported = w.exported := by
  induction ops with
  | nil => intro w; rfl
  | cons b rest ih =>
    intro w
    cases b <;>
      simp [applyPumpOps, gpio_on_pin, gpio_off_pin, ih] <;>
      cases h : w.exported <;> simp [h]

/-- C8: after `gpio_enable()` has succeeded, receiving SIGINT or SIGTERM
at any later point of the Running loop (i.e. after any sequence of pump
on/off actuations) makes the handler attempt `gpio_disable()` with errors
ignored, leaving the pin unexported, and then exit the process with
`EXIT_SUCCESS`. -/
theorem shutdown_signal_unexports (w0 w1 : PinWorld) (ops : List Bool)
    (sig : Sig)
    (henable : gpio_enable_pin w0 = (GPIO_OK, w1))
    (hsig : sig ≠ .sigusr1) :
    (signal_handler sig (applyPumpOps ops w1)).1.exported = false ∧
    (signal_handler sig (applyPumpOps ops w1)).2 =
      some ExitStatus.success := by
  have hw1 : w1.exported = true := by
    rw [gpio_enable_pin] at henable
    by_cases h : w0.exported
    · rw [if_pos h] at henable
      have hfst : GPIO_ERROR = GPIO_OK := congrArg Prod.fst henable
      exact absurd hfst (by decide)
    · rw [if_neg h] at henable
      have := congrArg Prod.snd henable
      simp only at this
      rw [← this]
  have hexp : (applyPumpOps ops w1).exported = true := by
    rw [applyPumpOps_exported, hw1]
  cases sig with
  | sigusr1 => exact absurd rfl hsig
  | sigint =>
    simp [signal_handler, gpio_disable_pin, hexp]
  | sigterm =>
    simp [signal_handler, gpio_disable_pin, hexp]

/-- Witness for C8: a fresh pin is enabled, the pump is pulsed once, then
SIGINT arrives; the pin ends unexported and the process exits
successfully. -/
theorem shutdown_signal_unexports_witness :
    (signal_handler .sigint
      (applyPumpOps [true, false] ⟨true, .dirOut, false⟩)).1.exported =
        false ∧
    (signal_handler .sigint
      (applyPumpOps [true, false] ⟨true, .dirOut, false⟩)).2 =
        some ExitStatus.success :=
  shutdown_signal_unexports ⟨false, .dirIn, false⟩ ⟨true, .dirOut, false⟩
    [true, false] .sigint rfl (by decide)

/-! ## Claim C9 -/

/-- C9: `gpio_disable` writes "in" to the direction control strictly
before the unexport write: whenever the unexport write was issued at all,
the issued writes are exactly [direction "in", unexport "17"] in that
order; if the direction step does not transfer its full byte count (or
its open/close fails) the call fails without issuing the unexport write;
if the direction step succeeds and the unexport step does not transfer
its full byte count the call fails; on success both writes were issued in
order. -/
theorem gpio_disable_order (r1 r2 : FileWriteRes) :
    ((gpio_disable r1 r2).1 = GPIO_OK →
      (gpio_disable r1 r2).2 =
        [.toDirection GPIO_INPUT, .toUnexport GPIO_PIN]) ∧
    (¬(r1.openOk = true ∧ r1.written = (GPIO_INPUT.length : Int) ∧
        r1.closeOk = true) →
      (gpio_disable r1 r2).1 = GPIO_ERROR ∧
      ∀ s, SysWrite.toUnexport s ∉ (gpio_disable r1 r2).2) ∧
    ((r1.openOk = true ∧ r1.written = (GPIO_INPUT.length : Int) ∧
        r1.closeOk = true) →
      ¬(r2.openOk = true ∧ r2.written = (GPIO_PIN.length : Int) ∧
        r2.closeOk = true) →
      (gpio_disable r1 r2).1 = GPIO_ERROR) ∧
    (∀ s, SysWrite.toUnexport s ∈ (gpio_disable r1 r2).2 →
      (gpio_disable r1 r2).2 =
        [.toDirection GPIO_INPUT, .toUnexport GPIO_PIN]) := by
  obtain ⟨o1, n1, c1⟩ := r1
  obtain ⟨o2, n2, c2⟩ := r2
  by_cases h1 : n1 = (GPIO_INPUT.length : Int) <;>
    by_cases h2 : n2 = (GPIO_PIN.length : Int) <;>
    cases o1 <;> cases c1 <;> cases o2 <;> cases c2 <;>
    simp [gpio_disable, h1, h2, GPIO_OK, GPIO_ERROR]

/-- Witness for C9 at concrete file outcomes: a fully successful first
write with a partial second write fails; a partial first write fails
with no unexport issued; full success issues both writes in order. -/
theorem gpio_disable_order_witness :
    (gpio_disable ⟨true, 2, true⟩ ⟨true, 2, true⟩).2 =
      [.toDirection GPIO_INPUT, .toUnexport GPIO_PIN] ∧
    ((gpio_disable ⟨true, 1, true⟩ ⟨true, 2, true⟩).1 = GPIO_ERROR ∧
     ∀ s, SysWrite.toUnexport s ∉
       (gpio_disable ⟨true, 1, true⟩ ⟨true, 2, true⟩).2) ∧
    (gpio_disable ⟨true, 2, true⟩ ⟨true, 1, true⟩).1 = GPIO_ERROR :=
  ⟨(gpio_disable_order ⟨true, 2, true⟩ ⟨true, 2, true⟩).1 (by decide),
   (gpio_disable_order ⟨true, 1, true⟩ ⟨true, 2, true⟩).2.1 (by decide),
   (gpio_disable_order ⟨true, 2, true⟩ ⟨true, 1, true⟩).2.2.1
     (by decide) (by decide)⟩

/-! ## Claim C10 -/

/-- C10: every successful call of `i2c_soil_drv_read` delivers exactly
one byte and returns 1, and the result does not depend on the requested
byte count — `count` is overwritten with 1 (main.c 500), so a request for
more bytes is truncated to a single byte rather than filled or
rejected. -/
theorem read_one_byte (st : SensorState) (a : Nat → AttemptOutcome)
    (count : Nat) :
    (0 ≤ (i2c_soil_drv_read st a count).1 →
      (i2c_soil_drv_read st a count).1 = 1 ∧
      (i2c_soil_drv_read st a count).2.length = 1) ∧
    i2c_soil_drv_read st a count = i2c_soil_drv_read st a 1 := by
  refine ⟨?_, rfl⟩
  intro hpos
  rw [i2c_soil_drv_read] at hpos ⊢
  by_cases hs : st.use_simulation
  · simp [hs]
  · simp only [hs, Bool.false_eq_true, if_false] at hpos ⊢
    by_cases hr : i2c_soil_drv_read_sensor a < 0
    · rw [if_pos hr] at hpos
      exact absurd hpos (by omega)
    · rw [if_neg hr]
      exact ⟨rfl, rfl⟩

/-- Witness for C10: a simulation-mode device delivers its stored byte —
one byte, return value 1 — even when 100 bytes were requested. -/
theorem read_one_byte_witness :
    (i2c_soil_drv_read ⟨true, 42⟩ attemptsAllFail 100).1 = 1 ∧
    (i2c_soil_drv_read ⟨true, 42⟩ attemptsAllFail 100).2.length = 1 :=
  (read_one_byte ⟨true, 42⟩ attemptsAllFail 100).1 (by decide)

end SoilMonitor
